import Mathlib

/-!
# Verification of the horary chart persistence layer and wheel geometry

Shallow embedding of `backend/horary_master_gui.py`:

* `ChartDatabase` and its operations `save_chart`, `get_chart`,
  `get_recent_charts`, `get_charts_by_date_range`, `get_statistics`
  (class `ChartDatabase` in the source).
* `ChartWheelCanvas`'s painting pipeline `paintEvent`, `draw_placeholder`,
  `draw_chart_wheel`, `draw_zodiac_wheel`, `draw_house_cusps`,
  `draw_planets`, `draw_aspects`, rendered as lists of drawing primitives.

SQLite state is modelled as an explicit record: the `charts` table is a list
of rows, `AUTOINCREMENT` is the counter `nextId`, `CURRENT_TIMESTAMP` is the
ambient clock value `now`, and the start of the current calendar month
(computed in `get_statistics` from `datetime.now()`) is the ambient value
`monthStart`.

Timestamps are modelled as the TEXT they really are in the store: the column
is populated by `DEFAULT CURRENT_TIMESTAMP`, i.e. `"YYYY-MM-DD HH:MM:SS"`
with a space separator, while the query bounds are bound as
`datetime.isoformat()` strings, `"YYYY-MM-DDTHH:MM:SS"` with a `'T'`
separator.  The column's declared type `DATETIME` gives NUMERIC affinity, and
since neither operand converts to a number SQLite compares the two operands
as TEXT under the BINARY collation (byte-wise `memcmp`); for these ASCII
strings that is exactly codepoint order, modelled here by `textLe`.
The physical-schema probe `PRAGMA table_info(charts)` (presence of the
`category` column) is the flag `hasCategory`.
-/

/-- The slice of the `result` dict that `save_chart` inspects:
`result.get('judgment', 'UNKNOWN')` and `result.get('confidence', 0)`.
A `none` field models an absent key.  The whole payload is also serialised
into the `chart_data` column (`json.dumps(result)`), modelled by storing the
payload itself. -/
structure ResultPayload where
  judgment : Option String
  confidence : Option Int
  deriving Repr, DecidableEq

/-- Byte-wise (`memcmp`) ≤ on character sequences, the BINARY collation SQLite
uses when comparing the stored timestamp TEXT with a bound parameter; on the
ASCII timestamp strings involved, codepoint order coincides with byte order. -/
def textLe : List Char → List Char → Bool
  | [], _ => true
  | _ :: _, [] => false
  | a :: as, b :: bs =>
    if a.toNat < b.toNat then true
    else if b.toNat < a.toNat then false
    else textLe as bs

/-- One row of the `charts` table.  Under the old physical schema the
`category` column does not exist; reads model this by ignoring the stored
`category` field whenever `hasCategory = false`. -/
structure ChartRow where
  id : Nat
  question : String
  location : String
  timestamp : String
  judgment : String
  confidence : Int
  chart_data : ResultPayload
  notes : String
  tags : List String
  category : String
  deriving Repr, DecidableEq

/-- The persistent state of `ChartDatabase`, plus the ambient clock values
used for `DEFAULT CURRENT_TIMESTAMP` and the first-of-month computation. -/
structure ChartDatabase where
  hasCategory : Bool
  nextId : Nat
  now : String
  monthStart : String
  charts : List ChartRow
  deriving Repr, DecidableEq

/-- `ChartDatabase.init_database`: fresh empty store with the current schema
(`category` column present, autoincrement starting at 1). -/
def init_database (now monthStart : String) : ChartDatabase :=
  { hasCategory := true, nextId := 1, now := now, monthStart := monthStart, charts := [] }

/-- `ChartDatabase.save_chart`: unconditionally inserts one row built from the
arguments (there is no validation of `question` or `location` in the method)
and returns the updated state together with `cursor.lastrowid`. -/
def save_chart (db : ChartDatabase) (question location : String) (result : ResultPayload)
    (notes : String) (tags : List String) (category : String) : ChartDatabase × Nat :=
  let judgment := result.judgment.getD "UNKNOWN"
  let confidence := result.confidence.getD 0
  let row : ChartRow :=
    { id := db.nextId, question := question, location := location, timestamp := db.now,
      judgment := judgment, confidence := confidence, chart_data := result,
      notes := notes, tags := tags, category := category }
  ({ db with nextId := db.nextId + 1, charts := db.charts ++ [row] }, db.nextId)

/-- The record shape returned by `ChartDatabase.get_chart`. -/
structure ChartRecord where
  id : Nat
  question : String
  location : String
  timestamp : String
  judgment : String
  confidence : Int
  chart_data : ResultPayload
  notes : String
  tags : List String
  category : String
  deriving Repr, DecidableEq

/-- `ChartDatabase.get_chart`: `SELECT ... WHERE id = ?`, `fetchone()`; returns
`None` when no row matches, otherwise the record dict.  Under the old schema
the returned `category` is the literal `'general'`. -/
def get_chart (db : ChartDatabase) (chart_id : Nat) : Option ChartRecord :=
  match db.charts.find? (fun r => r.id == chart_id) with
  | none => none
  | some r => some
    { id := chart_id, question := r.question, location := r.location,
      timestamp := r.timestamp, judgment := r.judgment, confidence := r.confidence,
      chart_data := r.chart_data, notes := r.notes, tags := r.tags,
      category := if db.hasCategory then r.category else "general" }

/-- Row ordering used by `ORDER BY timestamp DESC` in `get_recent_charts`
(TEXT comparison; all stored rows share the `CURRENT_TIMESTAMP` format). -/
def recentOrder (a b : ChartRow) : Prop :=
  textLe b.timestamp.data a.timestamp.data = true

/-- Row ordering used by `ORDER BY timestamp ASC` in
`get_charts_by_date_range` (TEXT comparison). -/
def ascOrder (a b : ChartRow) : Prop :=
  textLe a.timestamp.data b.timestamp.data = true

instance : DecidableRel recentOrder := fun a b =>
  inferInstanceAs (Decidable (textLe b.timestamp.data a.timestamp.data = true))

instance : DecidableRel ascOrder := fun a b =>
  inferInstanceAs (Decidable (textLe a.timestamp.data b.timestamp.data = true))

/-- The summary dict built by `get_recent_charts` for each row. -/
structure ChartSummary where
  id : Nat
  question : String
  location : String
  timestamp : String
  judgment : String
  confidence : Int
  category : String
  tags : List String
  deriving Repr, DecidableEq

/-- Row-to-summary conversion of `get_recent_charts`: the old schema
(`hasCategory = false`) yields `category = 'general'`. -/
def recentSummary (hasCategory : Bool) (r : ChartRow) : ChartSummary :=
  { id := r.id, question := r.question, location := r.location, timestamp := r.timestamp,
    judgment := r.judgment, confidence := r.confidence,
    category := if hasCategory then r.category else "general", tags := r.tags }

/-- `ChartDatabase.get_recent_charts`: probes the schema, selects with
`ORDER BY timestamp DESC LIMIT ?`, and builds summary dicts, defaulting
`category` to `'general'` on the old schema. -/
def get_recent_charts (db : ChartDatabase) (limit : Nat) : List ChartSummary :=
  ((db.charts.insertionSort recentOrder).take limit).map (recentSummary db.hasCategory)

/-- The summary dict built by `get_charts_by_date_range` for each row
(no `tags` field in this query). -/
structure RangeSummary where
  id : Nat
  question : String
  location : String
  timestamp : String
  judgment : String
  confidence : Int
  category : String
  deriving Repr, DecidableEq

/-- Row-to-summary conversion of `get_charts_by_date_range`. -/
def rangeSummary (hasCategory : Bool) (r : ChartRow) : RangeSummary :=
  { id := r.id, question := r.question, location := r.location, timestamp := r.timestamp,
    judgment := r.judgment, confidence := r.confidence,
    category := if hasCategory then r.category else "general" }

/-- `ChartDatabase.get_charts_by_date_range`:
`WHERE timestamp BETWEEN ? AND ? ORDER BY timestamp ASC` with the bounds
passed as `start_date.isoformat()` / `end_date.isoformat()` text.  SQL
`BETWEEN` is inclusive on both ends, but the comparison itself is the raw
TEXT (`memcmp`) order `textLe` between the stored
`"YYYY-MM-DD HH:MM:SS"` values and the `"YYYY-MM-DDTHH:MM:SS"` bounds. -/
def get_charts_by_date_range (db : ChartDatabase) (start_date end_date : String) :
    List RangeSummary :=
  ((db.charts.filter
      (fun r => textLe start_date.data r.timestamp.data &&
        textLe r.timestamp.data end_date.data)).insertionSort
        ascOrder).map (rangeSummary db.hasCategory)

/-- The statistics dict of `ChartDatabase.get_statistics`.  `categories` is the
`GROUP BY category` result viewed as a count function. -/
structure Statistics where
  total_charts : Nat
  this_month : Nat
  success_rate : Rat
  categories : String → Nat
  total_judgments : Nat

/-- `ChartDatabase.get_statistics`: total count; count with
`timestamp >= first_of_month.isoformat()` (the same raw TEXT comparison
between the stored and the isoformat encodings); success rate from the
judgments restricted by
`judgment IN ("YES", "NO")` (Python float division, modelled exactly in `ℚ`);
category breakdown, with the old schema showing everything as `'general'`. -/
def get_statistics (db : ChartDatabase) : Statistics :=
  let total_charts := db.charts.length
  let this_month :=
    (db.charts.filter (fun r => textLe db.monthStart.data r.timestamp.data)).length
  let yes_count := (db.charts.filter (fun r => r.judgment == "YES")).length
  let no_count := (db.charts.filter (fun r => r.judgment == "NO")).length
  let total_judgments := yes_count + no_count
  let success_rate : Rat :=
    if 0 < total_judgments then (yes_count : Rat) / (total_judgments : Rat) * 100 else 0
  { total_charts := total_charts, this_month := this_month, success_rate := success_rate,
    categories := fun c =>
      if db.hasCategory then (db.charts.filter (fun r => r.category == c)).length
      else if c == "general" then total_charts else 0,
    total_judgments := total_judgments }

/-!
## Wheel geometry (`ChartWheelCanvas`)

Painting is modelled as producing a list of abstract drawing primitives.
Angles are kept in plain degrees as rationals (the source converts to radians
only inside `math.cos`/`math.sin`, which does not affect which primitives are
emitted).
-/

/-- Abstract drawing primitives emitted by the canvas. -/
inductive Primitive where
  | placeholderRing
  | placeholderCaption (text : String)
  | backgroundCircle
  | sectorLine (angleDeg : Rat)
  | signGlyph (glyph : String) (angleDeg : Rat)
  | outerCircle
  | innerCircle
  | cuspLine (angleDeg : Rat)
  | houseNumber (n : Nat) (angleDeg : Rat)
  | planetGlyph (name glyph color : String) (angleDeg : Rat)
  | degreeLabel (longitude : Rat) (angleDeg : Rat)
  | aspectChord (planet1 planet2 aspectType color : String) (angle1 angle2 : Rat)
  deriving Repr, DecidableEq

/-- The slice of a planet's dict that drawing reads (`planet_data['longitude']`). -/
structure PlanetData where
  longitude : Rat
  deriving Repr, DecidableEq

/-- One aspect dict: `planet1`, `planet2`, `aspect`, and the optional
`applying` key (`aspect.get('applying', False)`), `none` modelling absence. -/
structure Aspect where
  planet1 : String
  planet2 : String
  aspect : String
  applying : Option Bool
  deriving Repr, DecidableEq

/-- The nested chart payload: `chart_data.get('houses', [])`,
`chart_data.get('planets', {})` (a dict in insertion order),
`chart_data.get('aspects', [])`; an absent key is the empty collection. -/
structure ChartPayload where
  houses : List Rat
  planets : List (String × PlanetData)
  aspects : List Aspect
  deriving Repr, DecidableEq

/-- The record handed to `set_chart_data`; only the optional `'chart_data'`
key matters to painting (`none` models a record without that key). -/
structure WheelInput where
  chart_data : Option ChartPayload
  deriving Repr, DecidableEq

/-- The static 12-entry zodiac table (glyph, name, color), in zodiac order. -/
def signs : List (String × String × String) :=
  [("♈", "Aries", "#ff6b6b"), ("♉", "Taurus", "#4ecdc4"),
   ("♊", "Gemini", "#45b7d1"), ("♋", "Cancer", "#96ceb4"),
   ("♌", "Leo", "#feca57"), ("♍", "Virgo", "#48dbfb"),
   ("♎", "Libra", "#ff9ff3"), ("♏", "Scorpio", "#54a0ff"),
   ("♐", "Sagittarius", "#5f27cd"), ("♑", "Capricorn", "#00d2d3"),
   ("♒", "Aquarius", "#ff9f43"), ("♓", "Pisces", "#a55eea")]

/-- `ChartWheelCanvas.draw_placeholder`: an empty ring and a caption. -/
def draw_placeholder : List Primitive :=
  [Primitive.placeholderRing,
   Primitive.placeholderCaption "Chart Wheel\n(Awaiting Chart Data)"]

/-- `ChartWheelCanvas.draw_zodiac_wheel`: for each sign `i`, a sector line at
`i*30 - 90` and the glyph centred at 15° into the sector, then the outer and
inner circles. -/
def draw_zodiac_wheel : List Primitive :=
  (signs.enum.flatMap fun p =>
    [Primitive.sectorLine ((p.1 : Rat) * 30 - 90),
     Primitive.signGlyph p.2.1 ((p.1 : Rat) * 30 - 90 + 15)])
  ++ [Primitive.outerCircle, Primitive.innerCircle]

/-- `ChartWheelCanvas.draw_house_cusps`: for the `i`-th cusp, a ray at
`cusp - 90` and the 1-based house number offset 15° into the sector. -/
def draw_house_cusps (houses : List Rat) : List Primitive :=
  houses.enum.flatMap fun p =>
    [Primitive.cuspLine (p.2 - 90),
     Primitive.houseNumber (p.1 + 1) (p.2 - 90 + 15)]

/-- The fixed supported planet set with glyphs (`planet_glyphs`). -/
def planet_glyphs : List (String × String) :=
  [("Sun", "☉"), ("Moon", "☽"), ("Mercury", "☿"), ("Venus", "♀"),
   ("Mars", "♂"), ("Jupiter", "♃"), ("Saturn", "♄")]

/-- The fixed planet color table (`planet_colors`). -/
def planet_colors : List (String × String) :=
  [("Sun", "#ff6b35"), ("Moon", "#a8dadc"), ("Mercury", "#457b9d"),
   ("Venus", "#e63946"), ("Mars", "#f77f00"), ("Jupiter", "#fcbf49"),
   ("Saturn", "#003566")]

/-- `ChartWheelCanvas.draw_planets`: planets whose name is in `planet_glyphs`
get a glyph at `longitude - 90` and a degree label; unrecognised names are
silently skipped. -/
def draw_planets (planets : List (String × PlanetData)) : List Primitive :=
  planets.flatMap fun pd =>
    match planet_glyphs.lookup pd.1 with
    | none => []
    | some glyph =>
      [Primitive.planetGlyph pd.1 glyph ((planet_colors.lookup pd.1).getD "#333333")
        (pd.2.longitude - 90),
       Primitive.degreeLabel pd.2.longitude (pd.2.longitude - 90)]

/-- The fixed aspect color table (`aspect_colors`). -/
def aspect_colors : List (String × String) :=
  [("Conjunction", "#333333"), ("Sextile", "#4CAF50"), ("Square", "#f44336"),
   ("Trine", "#2196F3"), ("Opposition", "#ff9800")]

/-- The chord (if any) one aspect dict contributes in
`ChartWheelCanvas.draw_aspects`: skipped unless `applying` is truthy, and
skipped when either endpoint name is not a key of `planets`. -/
def aspect_chord (planets : List (String × PlanetData)) (a : Aspect) : List Primitive :=
  if !(a.applying.getD false) then []
  else
    match planets.lookup a.planet1, planets.lookup a.planet2 with
    | some p1, some p2 =>
      [Primitive.aspectChord a.planet1 a.planet2 a.aspect
        ((aspect_colors.lookup a.aspect).getD "#333333")
        (p1.longitude - 90) (p2.longitude - 90)]
    | _, _ => []

/-- `ChartWheelCanvas.draw_aspects`: each aspect contributes via `aspect_chord`. -/
def draw_aspects (aspects : List Aspect) (planets : List (String × PlanetData)) :
    List Primitive :=
  aspects.flatMap (aspect_chord planets)

/-- `ChartWheelCanvas.draw_chart_wheel`: background circle, zodiac wheel, then
cusps/planets/aspects, each drawn only when the corresponding collection is
truthy (non-empty). -/
def draw_chart_wheel (payload : ChartPayload) : List Primitive :=
  [Primitive.backgroundCircle]
  ++ draw_zodiac_wheel
  ++ (if payload.houses.isEmpty then [] else draw_house_cusps payload.houses)
  ++ (if payload.planets.isEmpty then [] else draw_planets payload.planets)
  ++ (if payload.aspects.isEmpty then [] else draw_aspects payload.aspects payload.planets)

/-- `ChartWheelCanvas.paintEvent`: the placeholder is drawn when
`self.chart_data` is falsy or lacks the `'chart_data'` key; otherwise the full
wheel is drawn. -/
def paintEvent (chart_data : Option WheelInput) : List Primitive :=
  match chart_data with
  | none => draw_placeholder
  | some w =>
    match w.chart_data with
    | none => draw_placeholder
    | some payload => draw_chart_wheel payload

/-!
## Shared sample data and helper lemmas
-/

/-- A fresh store with the current schema and concrete clock text. -/
def sampleDb : ChartDatabase :=
  init_database "2025-06-15 12:00:00" "2025-06-01T00:00:00"

/-- A result payload with both keys present (concrete scenario 1). -/
def sampleResult : ResultPayload := { judgment := some "YES", confidence := some 82 }

/-- A store holding one chart with id 1. -/
def oneChartDb : ChartDatabase :=
  { hasCategory := true, nextId := 2, now := "2025-06-15 12:00:00",
    monthStart := "2025-06-01T00:00:00",
    charts := [{ id := 1, question := "Q", location := "L",
                 timestamp := "2025-06-10 08:00:00",
                 judgment := "YES", confidence := 80,
                 chart_data := { judgment := some "YES", confidence := some 80 },
                 notes := "", tags := [], category := "general" }] }

theorem find?_append_of_none {α : Type} (p : α → Bool) (l₁ l₂ : List α)
    (h : l₁.find? p = none) : (l₁ ++ l₂).find? p = l₂.find? p := by
  induction l₁ with
  | nil => rfl
  | cons a l ih =>
    rw [List.find?_cons] at h
    rw [List.cons_append, List.find?_cons]
    cases hpa : p a with
    | true => simp [hpa] at h
    | false =>
      simp only [hpa] at h ⊢
      exact ih h

/-- After `save_chart`, looking up the returned id yields exactly the record
just written (fresh-id hypothesis: autoincrement ids of existing rows are
below the counter). -/
theorem get_chart_after_save (db : ChartDatabase) (q loc : String) (res : ResultPayload)
    (notes : String) (tags : List String) (cat : String)
    (hids : ∀ r ∈ db.charts, r.id < db.nextId) :
    get_chart (save_chart db q loc res notes tags cat).1
        (save_chart db q loc res notes tags cat).2 =
      some { id := db.nextId, question := q, location := loc, timestamp := db.now,
             judgment := res.judgment.getD "UNKNOWN",
             confidence := res.confidence.getD 0, chart_data := res,
             notes := notes, tags := tags,
             category := if db.hasCategory then cat else "general" } := by
  have hnone : db.charts.find? (fun r => r.id == db.nextId) = none := by
    rw [List.find?_eq_none]
    intro r hr
    simpa using Nat.ne_of_lt (hids r hr)
  unfold get_chart save_chart
  simp only []
  rw [find?_append_of_none _ _ _ hnone]
  simp

/-- **C1 (counterexample)**: `saveChart("", "London", ...)` does not fail with a
validation error and does perform a write: starting from the empty store,
`total_charts` goes from 0 to 1 and the returned id resolves to a record. -/
theorem c1_counterexample :
    (get_statistics (save_chart sampleDb "" "London" sampleResult "" [] "general").1).total_charts
        = 1 ∧
    (get_statistics sampleDb).total_charts = 0 ∧
    get_chart (save_chart sampleDb "" "London" sampleResult "" [] "general").1
        (save_chart sampleDb "" "London" sampleResult "" [] "general").2 ≠ none := by
  refine ⟨rfl, rfl, ?_⟩
  decide

/-- **C1 (amended)**: `save_chart` performs no emptiness validation: for every
input, including an empty or whitespace `question` or `location`, it inserts
exactly one record (so `getStatistics().total_charts` increases by one) and
returns the next autoincrement id. -/
theorem c1_save_chart_never_validates (db : ChartDatabase) (q loc : String)
    (res : ResultPayload) (notes : String) (tags : List String) (cat : String) :
    (get_statistics (save_chart db q loc res notes tags cat).1).total_charts =
      (get_statistics db).total_charts + 1 ∧
    (save_chart db q loc res notes tags cat).2 = db.nextId := by
  constructor
  · simp [save_chart, get_statistics]
  · rfl

/-- **C8**: for an id carried by no stored chart, `get_chart` returns the
explicit absent value `none` rather than raising. -/
theorem c8_get_chart_missing_id_is_none (db : ChartDatabase) (i : Nat)
    (h : ∀ r ∈ db.charts, r.id ≠ i) : get_chart db i = none := by
  unfold get_chart
  have hnone : db.charts.find? (fun r => r.id == i) = none := by
    rw [List.find?_eq_none]
    intro r hr
    simpa using h r hr
  rw [hnone]

/-- **C8 (witness)**: a store holding only chart id 1 answers `none` for id 2. -/
theorem c8_witness : get_chart oneChartDb 2 = none :=
  c8_get_chart_missing_id_is_none oneChartDb 2 (by decide)

/-- **C2**: for valid (non-empty after trimming) question and location and a
result payload carrying both `judgment` and `confidence`, `save_chart`
followed by `get_chart` on the returned id round-trips `question`,
`location`, `judgment`, `confidence` exactly, with the record's id equal to
the returned (non-null) id. -/
theorem c2_save_get_roundtrip (db : ChartDatabase) (q loc j : String) (c : Int)
    (res : ResultPayload) (notes : String) (tags : List String) (cat : String)
    (hids : ∀ r ∈ db.charts, r.id < db.nextId)
    (hq : q ≠ "") (hl : loc ≠ "")
    (hj : res.judgment = some j) (hc : res.confidence = some c) :
    ∃ rec : ChartRecord,
      get_chart (save_chart db q loc res notes tags cat).1
          (save_chart db q loc res notes tags cat).2 = some rec ∧
      rec.question = q ∧ rec.location = loc ∧ rec.judgment = j ∧
      rec.confidence = c ∧ rec.id = (save_chart db q loc res notes tags cat).2 := by
  refine ⟨_, get_chart_after_save db q loc res notes tags cat hids, rfl, rfl, ?_, ?_, rfl⟩
  · simp [hj]
  · simp [hc]

/-- **C2 (witness)**: concrete scenario 1 — saving question
"Will I get the job?" at "London, England" with judgment YES and confidence
82 into the fresh store and reading it back. -/
theorem c2_witness :
    ∃ rec : ChartRecord,
      get_chart (save_chart sampleDb "Will I get the job?" "London, England"
            sampleResult "" [] "general").1
          (save_chart sampleDb "Will I get the job?" "London, England"
            sampleResult "" [] "general").2 = some rec ∧
      rec.question = "Will I get the job?" ∧ rec.location = "London, England" ∧
      rec.judgment = "YES" ∧ rec.confidence = 82 ∧
      rec.id = (save_chart sampleDb "Will I get the job?" "London, England"
            sampleResult "" [] "general").2 :=
  c2_save_get_roundtrip sampleDb "Will I get the job?" "London, England" "YES" 82
    sampleResult "" [] "general" (by decide) (by decide) (by decide) rfl rfl

/-- **C10**: the two defaults are independent — whenever the result payload
lacks the `judgment` key the stored record's judgment is `"UNKNOWN"`, and
whenever it lacks the `confidence` key the stored confidence is `0`;
`get_chart` on the returned id reports exactly these defaults. -/
theorem c10_save_defaults (db : ChartDatabase) (q loc : String) (res : ResultPayload)
    (notes : String) (tags : List String) (cat : String)
    (hids : ∀ r ∈ db.charts, r.id < db.nextId) :
    ∃ rec : ChartRecord,
      get_chart (save_chart db q loc res notes tags cat).1
          (save_chart db q loc res notes tags cat).2 = some rec ∧
      (res.judgment = none → rec.judgment = "UNKNOWN") ∧
      (res.confidence = none → rec.confidence = 0) := by
  refine ⟨_, get_chart_after_save db q loc res notes tags cat hids, ?_, ?_⟩
  · intro hj
    simp [hj]
  · intro hc
    simp [hc]

/-- **C10 (witness)**: saving a payload that lacks only the `judgment` key
(confidence present as 55) yields a record judged `"UNKNOWN"`. -/
theorem c10_witness :
    ∃ rec : ChartRecord,
      get_chart (save_chart sampleDb "Q" "L" { judgment := none, confidence := some 55 }
            "" [] "general").1
          (save_chart sampleDb "Q" "L" { judgment := none, confidence := some 55 }
            "" [] "general").2 = some rec ∧
      (({ judgment := none, confidence := some 55 } : ResultPayload).judgment = none →
        rec.judgment = "UNKNOWN") ∧
      (({ judgment := none, confidence := some 55 } : ResultPayload).confidence = none →
        rec.confidence = 0) :=
  c10_save_defaults sampleDb "Q" "L" { judgment := none, confidence := some 55 }
    "" [] "general" (by decide)

/-- Counting split: rows judged YES-or-NO are exactly the YES rows plus the
NO rows (the two predicates are mutually exclusive). -/
theorem length_filter_yes_or_no (l : List ChartRow) :
    (l.filter (fun r => r.judgment == "YES" || r.judgment == "NO")).length =
      (l.filter (fun r => r.judgment == "YES")).length +
      (l.filter (fun r => r.judgment == "NO")).length := by
  induction l with
  | nil => rfl
  | cons a l ih =>
    simp only [List.filter_cons]
    by_cases h1 : a.judgment = "YES"
    · simp [h1, ih]
      omega
    · by_cases h2 : a.judgment = "NO"
      · simp [h1, h2, ih]
        omega
      · simp [h1, h2, ih]

/-- The success-rate formula is bounded by 0 and 100 and is 0 on an empty
denominator. -/
theorem rate_formula_bounds (yes no : Nat) :
    0 ≤ (if 0 < yes + no then (yes : Rat) / ((yes + no : Nat) : Rat) * 100 else 0) ∧
    (if 0 < yes + no then (yes : Rat) / ((yes + no : Nat) : Rat) * 100 else 0) ≤ 100 := by
  constructor
  · split
    · positivity
    · exact le_refl 0
  · split
    · rename_i h
      have h1 : (yes : Rat) ≤ ((yes + no : Nat) : Rat) := by
        exact_mod_cast Nat.le_add_right yes no
      have h2 : (0 : Rat) < ((yes + no : Nat) : Rat) := by exact_mod_cast h
      calc (yes : Rat) / ((yes + no : Nat) : Rat) * 100
          ≤ 1 * 100 := by
            apply mul_le_mul_of_nonneg_right _ (by norm_num)
            exact (div_le_one h2).mpr h1
        _ = 100 := by norm_num
    · norm_num

/-- **C4**: `success_rate` equals (YES count) / (YES-or-NO count) × 100 with
charts of any other judgment in neither numerator nor denominator, equals 0
when no YES/NO chart exists, and always lies in [0, 100]. -/
theorem c4_success_rate (db : ChartDatabase) :
    ((get_statistics db).success_rate =
      if 0 < (db.charts.filter (fun r => r.judgment == "YES" || r.judgment == "NO")).length
      then ((db.charts.filter (fun r => r.judgment == "YES")).length : Rat) /
            ((db.charts.filter (fun r => r.judgment == "YES" || r.judgment == "NO")).length :
              Rat) * 100
      else 0) ∧
    0 ≤ (get_statistics db).success_rate ∧ (get_statistics db).success_rate ≤ 100 := by
  have hrate : (get_statistics db).success_rate =
      if 0 < ((db.charts.filter (fun r => r.judgment == "YES")).length +
              (db.charts.filter (fun r => r.judgment == "NO")).length)
      then ((db.charts.filter (fun r => r.judgment == "YES")).length : Rat) /
            (((db.charts.filter (fun r => r.judgment == "YES")).length +
              (db.charts.filter (fun r => r.judgment == "NO")).length : Nat) : Rat) * 100
      else 0 := rfl
  refine ⟨?_, ?_, ?_⟩
  · rw [hrate, length_filter_yes_or_no]
  · rw [hrate]
    exact (rate_formula_bounds _ _).1
  · rw [hrate]
    exact (rate_formula_bounds _ _).2

/-- **C5**: every summary returned by `get_recent_charts` corresponds to a
stored row; opened against the older schema without the `category` column
(`hasCategory = false`) its `category` is always `"general"`, and against the
current schema it is the stored category.  The returned value is total — the
schema difference never surfaces as a structural error. -/
theorem c5_recent_charts_category (db : ChartDatabase) (limit : Nat) (s : ChartSummary)
    (h : s ∈ get_recent_charts db limit) :
    (db.hasCategory = false → s.category = "general") ∧
    ∃ r ∈ db.charts, r.id = s.id ∧
      s.category = (if db.hasCategory then r.category else "general") := by
  unfold get_recent_charts at h
  rcases List.mem_map.mp h with ⟨r, hr, rfl⟩
  have hr' : r ∈ db.charts :=
    ((List.perm_insertionSort recentOrder db.charts).mem_iff).mp (List.mem_of_mem_take hr)
  constructor
  · intro hcat
    simp [recentSummary, hcat]
  · exact ⟨r, hr', rfl, by simp [recentSummary]⟩

/-- A store opened against the pre-`category` schema holding one row whose
(ignored) stored category text is "business". -/
def oldSchemaDb : ChartDatabase :=
  { hasCategory := false, nextId := 2, now := "2025-06-15 12:00:00",
    monthStart := "2025-06-01T00:00:00",
    charts := [{ id := 1, question := "Q", location := "L",
                 timestamp := "2025-06-10 08:00:00",
                 judgment := "YES", confidence := 80,
                 chart_data := { judgment := some "YES", confidence := some 80 },
                 notes := "", tags := [], category := "business" }] }

/-- The summary `get_recent_charts` returns for the row of `oldSchemaDb`. -/
def oldSchemaSummary : ChartSummary :=
  { id := 1, question := "Q", location := "L", timestamp := "2025-06-10 08:00:00",
    judgment := "YES", confidence := 80, category := "general", tags := [] }

/-- **C5 (witness)**: concrete scenario 2 — the old-schema store reports
`category = "general"` for its row. -/
theorem c5_witness :
    (oldSchemaDb.hasCategory = false → oldSchemaSummary.category = "general") ∧
    ∃ r ∈ oldSchemaDb.charts, r.id = oldSchemaSummary.id ∧
      oldSchemaSummary.category =
        (if oldSchemaDb.hasCategory then r.category else "general") :=
  c5_recent_charts_category oldSchemaDb 10 oldSchemaSummary (by decide)

/-- A store holding one chart written through `DEFAULT CURRENT_TIMESTAMP` at
noon UTC on 2025-06-15, i.e. the TEXT `"2025-06-15 12:00:00"` (space
separator). -/
def c9_db : ChartDatabase :=
  { hasCategory := true, nextId := 2, now := "2025-06-15 12:00:00",
    monthStart := "2025-06-01T00:00:00",
    charts := [{ id := 1, question := "Q", location := "L",
                 timestamp := "2025-06-15 12:00:00", judgment := "YES",
                 confidence := 80,
                 chart_data := { judgment := some "YES", confidence := some 80 },
                 notes := "", tags := [], category := "general" }] }

/-- The summary of the single chart of `c9_db`. -/
def c9_summary : RangeSummary :=
  { id := 1, question := "Q", location := "L",
    timestamp := "2025-06-15 12:00:00", judgment := "YES", confidence := 80,
    category := "general" }

/-- **C9 (divergence at the failing input)**: the claim's closed chronological
interval is not what the query computes, because the stored
`CURRENT_TIMESTAMP` text (space separator) is compared byte-wise against the
`isoformat()` bounds (`'T'` separator) and `' ' < 'T'`.
The chart at instant 2025-06-15 12:00:00 lies inside
[2025-06-15T00:00:00, 2025-06-16T00:00:00] yet the first query returns
nothing (the entire start day, start instant included, falls below the start
bound); it lies outside [2025-06-14T00:00:00, 2025-06-15T10:00:00], two hours
past the end instant, yet the second query returns it (the entire end day
falls below the end bound). -/
theorem c9_mixed_text_comparison_bug :
    get_charts_by_date_range c9_db "2025-06-15T00:00:00" "2025-06-16T00:00:00" = [] ∧
    get_charts_by_date_range c9_db "2025-06-14T00:00:00" "2025-06-15T10:00:00" =
      [c9_summary] := by
  constructor <;> rfl

/-- A chart payload that is present but has no houses, planets or aspects. -/
def emptyPayload : ChartPayload := { houses := [], planets := [], aspects := [] }

/-- **C3 (counterexample)**: a chart record whose payload structure is present
but empty is *not* rendered as the placeholder — the canvas paints the
background circle and zodiac ring instead. -/
theorem c3_counterexample :
    paintEvent (some { chart_data := some emptyPayload }) ≠ draw_placeholder ∧
    Primitive.backgroundCircle ∈ paintEvent (some { chart_data := some emptyPayload }) ∧
    Primitive.outerCircle ∈ paintEvent (some { chart_data := some emptyPayload }) := by
  refine ⟨?_, ?_, ?_⟩ <;> decide

/-- **C3 (amended)**: the placeholder (empty ring plus caption) is produced
exactly when the assigned record is absent or lacks the `chart_data` key; a
payload that is present but empty instead yields the background circle and the
zodiac wheel (a partial wheel with no house rays, planet glyphs or aspect
chords). -/
theorem c3_placeholder_only_when_payload_key_absent (w : Option WheelInput) :
    ((w = none ∨ ∃ wi, w = some wi ∧ wi.chart_data = none) →
      paintEvent w = draw_placeholder) ∧
    paintEvent (some { chart_data := some emptyPayload }) =
      Primitive.backgroundCircle :: draw_zodiac_wheel := by
  constructor
  · rintro (rfl | ⟨wi, rfl, hwi⟩)
    · rfl
    · obtain ⟨cd⟩ := wi
      simp only at hwi
      subst hwi
      rfl
  · show draw_chart_wheel emptyPayload = _
    unfold draw_chart_wheel
    simp [emptyPayload]
  
/-- **C3 (witness)**: both placeholder inputs — no record assigned, and a
record without the `chart_data` key — paint exactly the placeholder. -/
theorem c3_witness :
    paintEvent none = draw_placeholder ∧
    paintEvent (some { chart_data := none }) = draw_placeholder :=
  ⟨(c3_placeholder_only_when_payload_key_absent none).1 (Or.inl rfl),
   (c3_placeholder_only_when_payload_key_absent (some { chart_data := none })).1
     (Or.inr ⟨_, rfl, rfl⟩)⟩

/-- Anatomy of a drawn chord: a primitive can only be emitted for an aspect
whose `applying` value is literally `some true`, and then the aspect's whole
contribution is that single chord. -/
theorem aspect_chord_spec (planets : List (String × PlanetData)) (a : Aspect)
    (p : Primitive) (hpa : p ∈ aspect_chord planets a) :
    a.applying = some true ∧ aspect_chord planets a = [p] := by
  unfold aspect_chord at hpa ⊢
  cases ha : a.applying with
  | none => simp [ha] at hpa
  | some b =>
    cases b with
    | false => simp [ha] at hpa
    | true =>
      simp only [ha, Option.getD_some, Bool.not_true, Bool.false_eq_true, if_false] at hpa ⊢
      refine ⟨trivial, ?_⟩
      cases h1 : planets.lookup a.planet1 with
      | none => simp [h1] at hpa
      | some p1 =>
        cases h2 : planets.lookup a.planet2 with
        | none => simp [h1, h2] at hpa
        | some p2 =>
          simp only [h1, h2, List.mem_singleton] at hpa
          simp only [h1, h2]
          rw [hpa]

/-- **C6**: for every input aspect list and planet mapping, every chord in the
output of `draw_aspects` arises from an aspect whose `applying` flag is
`True`; aspects with `applying` false or absent are never drawn. -/
theorem c6_only_applying_aspects_drawn (aspects : List Aspect)
    (planets : List (String × PlanetData)) :
    ∀ p ∈ draw_aspects aspects planets,
      ∃ a ∈ aspects, a.applying = some true ∧ aspect_chord planets a = [p] := by
  intro p hp
  unfold draw_aspects at hp
  rcases List.mem_flatMap.mp hp with ⟨a, ha, hpa⟩
  obtain ⟨happ, hsing⟩ := aspect_chord_spec planets a p hpa
  exact ⟨a, ha, happ, hsing⟩

/-- Planet mapping used in the aspect scenarios: Sun at 95.4°, Moon at 185.4°. -/
def scenarioPlanets : List (String × PlanetData) :=
  [("Sun", { longitude := 95.4 }), ("Moon", { longitude := 185.4 })]

/-- One applying Square aspect between Sun and Moon. -/
def applyingSquare : Aspect :=
  { planet1 := "Sun", planet2 := "Moon", aspect := "Square", applying := some true }

/-- The chord `draw_aspects` emits for `applyingSquare` over `scenarioPlanets`. -/
def squareChord : Primitive :=
  Primitive.aspectChord "Sun" "Moon" "Square" "#f44336"
    ((95.4 : Rat) - 90) ((185.4 : Rat) - 90)

/-- **C6 (witness)**: the applying Sun–Moon square produces its chord, traced
back to an aspect with `applying = True`. -/
theorem c6_witness :
    ∃ a ∈ [applyingSquare], a.applying = some true ∧
      aspect_chord scenarioPlanets a = [squareChord] :=
  c6_only_applying_aspects_drawn [applyingSquare] scenarioPlanets squareChord
    (List.mem_singleton_self squareChord)

/-- **C7**: an applying aspect either of whose endpoint planet names is absent
from the planets mapping is skipped — it contributes no chord, and dropping it
from the input leaves the drawn chord set unchanged; the skip is by an
ordinary guard, not an exception. -/
theorem c7_missing_planet_skipped (planets : List (String × PlanetData)) (a : Aspect)
    (aspects : List Aspect) (hap : a.applying = some true)
    (h : planets.lookup a.planet1 = none ∨ planets.lookup a.planet2 = none) :
    aspect_chord planets a = [] ∧
    draw_aspects (a :: aspects) planets = draw_aspects aspects planets := by
  have hc : aspect_chord planets a = [] := by
    unfold aspect_chord
    rw [hap]
    simp only [Option.getD_some, Bool.not_true, Bool.false_eq_true, if_false]
    rcases h with h | h
    · rw [h]
    · rw [h]
      cases planets.lookup a.planet1 <;> rfl
  refine ⟨hc, ?_⟩
  unfold draw_aspects
  rw [List.flatMap_cons, hc, List.nil_append]

/-- An applying aspect whose second endpoint "Venus" is not in the mapping. -/
def danglingAspect : Aspect :=
  { planet1 := "Sun", planet2 := "Venus", aspect := "Trine", applying := some true }

/-- **C7 (witness)**: the Sun–Venus aspect over a mapping without Venus is
dropped, and drawing it alongside the square changes nothing. -/
theorem c7_witness :
    aspect_chord scenarioPlanets danglingAspect = [] ∧
    draw_aspects (danglingAspect :: [applyingSquare]) scenarioPlanets =
      draw_aspects [applyingSquare] scenarioPlanets :=
  c7_missing_planet_skipped scenarioPlanets danglingAspect [applyingSquare] rfl
    (Or.inr rfl)
